import Mathlib

/-! Verification development for the CFDI analyzer core: a shallow embedding of
the document parser (`app/parser_cfdi.py`), the classifier (`app/classifier.py`),
the KPI aggregation (`app/kpis.py`) and the batch scanner loop (`app/scanner.py`),
together with theorems about them.  Monetary values are modelled as rationals,
Python strings as Lean strings, and the XML tree as an explicit inductive type. -/

/-! ## Python string primitives -/

/-- Model of Python `str.strip()`: remove leading and trailing whitespace. -/
def pyStrip (s : String) : String :=
  ⟨((s.data.dropWhile Char.isWhitespace).reverse.dropWhile Char.isWhitespace).reverse⟩

/-- Model of Python `str.upper()` (ASCII range, which covers RFC strings). -/
def pyUpper (s : String) : String :=
  ⟨s.data.map Char.toUpper⟩

/-- Model of Python `a or b` for an optional string `a` with default `b`:
`None` and the empty string are falsy. -/
def pyOrStr (a : Option String) (b : String) : String :=
  match a with
  | none => b
  | some s => if s == "" then b else s

/-- Model of Python `str.startswith`. -/
def pyStartsWith (s pre : String) : Bool :=
  pre.data.isPrefixOf s.data

/-- Digit list to natural number. -/
def digitsToNat (cs : List Char) : Nat :=
  cs.foldl (fun n c => n * 10 + (c.toNat - 48)) 0

/-- Model of Python `float(str)` on its decimal forms: optional surrounding
whitespace, optional sign, digits with an optional fractional part.
Returns `none` where Python raises `ValueError`. -/
def pyParseFloat (cs : List Char) : Option ℚ :=
  let cs := cs.dropWhile Char.isWhitespace
  let cs := (cs.reverse.dropWhile Char.isWhitespace).reverse
  let sgn : ℚ × List Char :=
    match cs with
    | '-' :: rest => (-1, rest)
    | '+' :: rest => (1, rest)
    | _ => (1, cs)
  let intPart := sgn.2.takeWhile Char.isDigit
  let rest := sgn.2.dropWhile Char.isDigit
  match rest with
  | [] =>
    if intPart.isEmpty then none
    else some (sgn.1 * (digitsToNat intPart : ℚ))
  | '.' :: fracPart =>
    if fracPart.all Char.isDigit && !(intPart.isEmpty && fracPart.isEmpty) then
      some (sgn.1 * ((digitsToNat intPart : ℚ) +
        (digitsToNat fracPart : ℚ) / (10 : ℚ) ^ fracPart.length))
    else none
  | _ => none

/-- Embedding of `_safe_float` from `app/parser_cfdi.py`: `None` and
unparseable strings coerce to `0.0`. -/
def pySafeFloat (v : Option String) : ℚ :=
  match v with
  | none => 0
  | some s => (pyParseFloat s.data).getD 0

/-! ## Dates (`app/utils.py`) -/

/-- Naive datetime, the fields of Python `datetime` used by the application. -/
structure PyDateTime where
  year : Nat
  month : Nat
  day : Nat
  hour : Nat
  minute : Nat
  second : Nat
deriving DecidableEq

/-- Days in a month, Gregorian calendar, as validated by `datetime`. -/
def daysInMonth (y m : Nat) : Nat :=
  if m == 2 then
    if y % 4 == 0 && (y % 100 != 0 || y % 400 == 0) then 29 else 28
  else if m == 4 || m == 6 || m == 9 || m == 11 then 30
  else 31

/-- Model of `datetime.fromisoformat` on its core forms
`YYYY-MM-DD`, `YYYY-MM-DDTHH:MM` and `YYYY-MM-DDTHH:MM:SS`. -/
def pyFromIso (cs : List Char) : Option PyDateTime :=
  match cs with
  | y1 :: y2 :: y3 :: y4 :: '-' :: m1 :: m2 :: '-' :: d1 :: d2 :: rest =>
    if [y1, y2, y3, y4, m1, m2, d1, d2].all Char.isDigit then
      let y := digitsToNat [y1, y2, y3, y4]
      let mo := digitsToNat [m1, m2]
      let d := digitsToNat [d1, d2]
      let time : Option (Nat × Nat × Nat) :=
        match rest with
        | [] => some (0, 0, 0)
        | sep :: h1 :: h2 :: ':' :: i1 :: i2 :: rest2 =>
          if (sep == 'T' || sep == ' ') && [h1, h2, i1, i2].all Char.isDigit then
            match rest2 with
            | [] => some (digitsToNat [h1, h2], digitsToNat [i1, i2], 0)
            | ':' :: s1 :: s2 :: [] =>
              if [s1, s2].all Char.isDigit then
                some (digitsToNat [h1, h2], digitsToNat [i1, i2], digitsToNat [s1, s2])
              else none
            | _ => none
          else none
        | _ => none
      match time with
      | none => none
      | some (h, mi, s) =>
        if 1 ≤ mo && mo ≤ 12 && 1 ≤ d && d ≤ daysInMonth y mo
            && h ≤ 23 && mi ≤ 59 && s ≤ 59 then
          some ⟨y, mo, d, h, mi, s⟩
        else none
    else none
  | _ => none

/-- Embedding of `parse_iso_datetime` from `app/utils.py`: empty input gives
`None`; a trailing `Z` is removed; fractional seconds are cut; then the
string is handed to `fromisoformat`, with parse failures giving `None`. -/
def parse_iso_datetime (s : String) : Option PyDateTime :=
  if s == "" then none
  else
    let cs := s.data
    let cs := if cs.getLast? == some 'Z' then cs.dropLast else cs
    let cs := if cs.contains '.' then cs.takeWhile (· ≠ '.') else cs
    pyFromIso cs

/-- Left-pad a natural number with zeros to a given width. -/
def padZeros (w : Nat) (n : Nat) : String :=
  let s := toString n
  ⟨List.replicate (w - s.length) '0' ++ s.data⟩

/-- Embedding of `month_key` from `app/utils.py`: `YYYY-MM` key of a date,
empty string when the date is absent. -/
def month_key : Option PyDateTime → String
  | none => ""
  | some d => padZeros 4 d.year ++ "-" ++ padZeros 2 d.month

/-! ## Data model (`app/models.py`) -/

/-- Embedding of the `Concepto` dataclass.  The per-line tax dictionaries are
association lists from the raw `Impuesto` attribute (which may be absent,
hence `Option String`) to the accumulated amount. -/
structure Concepto where
  uuid : String
  clave_prod_serv : String
  cantidad : ℚ
  clave_unidad : String
  unidad : String
  descripcion : String
  valor_unitario : ℚ
  importe : ℚ
  descuento : ℚ
  impuestos_traslado : List (Option String × ℚ)
  impuestos_retencion : List (Option String × ℚ)
deriving DecidableEq

/-- Embedding of the `CFDI` dataclass. -/
structure CFDI where
  uuid : String
  fecha : Option PyDateTime
  tipo : String
  serie : String
  folio : String
  emisor_rfc : String
  emisor_nombre : String
  emisor_regimen : String
  receptor_rfc : String
  receptor_nombre : String
  receptor_regimen : String
  uso_cfdi : String
  subtotal : ℚ
  descuento : ℚ
  total : ℚ
  moneda : String
  tipo_cambio : ℚ
  forma_pago : String
  metodo_pago : String
  lugar_expedicion : String
  iva_trasladado : ℚ
  isr_retenido : ℚ
  iva_retenido : ℚ
  ieps : ℚ
  num_conceptos : Nat
  version : String
  warnings : List String
  clasificacion : String := "No clasificado"
deriving DecidableEq

/-! ## Classifier (`app/classifier.py`) -/

/-- Embedding of `classify_cfdi`.  The record argument is optional because the
Python function guards `not cfdi` (a dataclass instance is always truthy, so
this only catches `None`); `not user_rfc` catches exactly the empty string. -/
def classify_cfdi (cfdi : Option CFDI) (user_rfc : String) : String :=
  match cfdi with
  | none => "No clasificado"
  | some c =>
    if user_rfc == "" then "No clasificado"
    else
      let rfc_user := pyUpper (pyStrip user_rfc)
      let emisor := pyUpper (pyStrip c.emisor_rfc)
      let receptor := pyUpper (pyStrip c.receptor_rfc)
      let tipo := pyUpper c.tipo
      if tipo == "I" then
        if rfc_user == emisor then "Ingresos"
        else if rfc_user == receptor then "Egresos"
        else "No clasificado"
      else "No clasificado"

/-! ## XML documents

An element carries its namespace URI (empty when the element has none), its
local tag name, its attributes and its children, mirroring the resolved form
`lxml` exposes.  A document carries the root element together with the root's
namespace declarations (`root.nsmap`): pairs of optional declared alias
(`none` for the default namespace) and URI. -/

inductive XmlElem : Type where
  | node : String → String → List (String × String) → List XmlElem → XmlElem

/-- Namespace URI of an element. -/
def XmlElem.ns : XmlElem → String
  | .node n _ _ _ => n

/-- Local tag name of an element. -/
def XmlElem.tag : XmlElem → String
  | .node _ t _ _ => t

/-- Attribute list of an element. -/
def XmlElem.attrs : XmlElem → List (String × String)
  | .node _ _ a _ => a

/-- Children of an element. -/
def XmlElem.children : XmlElem → List XmlElem
  | .node _ _ _ c => c

/-- Model of `Element.get`: value of an attribute, `None` when absent. -/
def XmlElem.getAttr (e : XmlElem) (name : String) : Option String :=
  (e.attrs.find? (fun p => p.1 == name)).map Prod.snd

/-- An XML document as handed to the parser. -/
structure XmlDoc where
  root : XmlElem
  nsdecls : List (Option String × String)

/-- Insert or overwrite a key in an association list, as Python dict
assignment does (later assignments win, insertion order kept). -/
def dictInsert (m : List (String × String)) (k v : String) : List (String × String) :=
  if m.any (fun p => p.1 == k) then
    m.map (fun p => if p.1 == k then (k, v) else p)
  else m ++ [(k, v)]

/-- First value bound to a key in an association list (`dict` lookup). -/
def dictGet? (m : List (String × String)) (k : String) : Option String :=
  (m.find? (fun p => p.1 == k)).map Prod.snd

/-- Hardcoded fallback URI of the fiscal-stamp namespace. -/
def tfdNS : String := "http://www.sat.gob.mx/TimbreFiscalDigital"

/-- Namespace map built by `parse_cfdi`: every declaration is kept, the
default-namespace declaration is renamed to the alias `cfdi`, and the alias
`tfd` is given a hardcoded fallback when it is not declared. -/
def buildNsmap (decls : List (Option String × String)) : List (String × String) :=
  let m := decls.foldl (fun m kv => dictInsert m (kv.1.getD "cfdi") kv.2) []
  if m.any (fun p => p.1 == "tfd") then m else dictInsert m "tfd" tfdNS

/-- First child of `e` with namespace URI `uri` and local name `loc`
(model of `Element.find` once the path alias is resolved). -/
def firstChildNamed (uri : String) (e : XmlElem) (loc : String) : Option XmlElem :=
  e.children.find? (fun c => c.ns == uri && c.tag == loc)

/-- All children of `e` with namespace URI `uri` and local name `loc`
(model of `Element.findall` once the path alias is resolved). -/
def childrenNamed (uri : String) (e : XmlElem) (loc : String) : List XmlElem :=
  e.children.filter (fun c => c.ns == uri && c.tag == loc)

/-! ## Parser (`app/parser_cfdi.py`) -/

/-- The `TipoDeComprobante` read by the parser: value of the attribute in
either of its two spellings, uppercased, empty when absent. -/
def tipoOf (root : XmlElem) : String :=
  pyUpper (pyOrStr (root.getAttr "TipoDeComprobante")
    (pyOrStr (root.getAttr "TipoComprobante") ""))

/-- URI the alias `cfdi` resolves to under the document's namespace map,
when it resolves at all. -/
def cfdiUriOf (doc : XmlDoc) : Option String :=
  dictGet? (buildNsmap doc.nsdecls) "cfdi"

/-- URI the alias `tfd` resolves to (total, thanks to the fallback). -/
def tfdUriOf (doc : XmlDoc) : String :=
  (dictGet? (buildNsmap doc.nsdecls) "tfd").getD tfdNS

/-- UUID extraction: the `UUID` attribute of the `TimbreFiscalDigital`
element inside `Complemento`, the empty string at every failure point
(Python keeps `uuid = None`, and `not uuid` also catches an empty value). -/
def extractUuid (cfdiUri tfdUri : String) (root : XmlElem) : String :=
  match firstChildNamed cfdiUri root "Complemento" with
  | none => ""
  | some comp =>
    match firstChildNamed tfdUri comp "TimbreFiscalDigital" with
    | none => ""
    | some timbre => (timbre.getAttr "UUID").getD ""

/-- Legacy-schema warning text. -/
def cfdi33Warning : String :=
  "⚠️ CFDI 3.3 detectado: procesado, pero se recomienda CFDI 4.0"

/-- One step of the document-level `Traslado` loop: only tax code `002`
accumulates. -/
def docTrasladoStep (acc : ℚ) (t : XmlElem) : ℚ :=
  if t.getAttr "Impuesto" == some "002" then
    acc + pySafeFloat (t.getAttr "Importe")
  else acc

/-- One step of the document-level `Retencion` loop over
`(isr_retenido, iva_retenido, ieps_total)`. -/
def docRetencionStep (acc : ℚ × ℚ × ℚ) (r : XmlElem) : ℚ × ℚ × ℚ :=
  let v := pySafeFloat (r.getAttr "Importe")
  if r.getAttr "Impuesto" == some "001" then (acc.1 + v, acc.2.1, acc.2.2)
  else if r.getAttr "Impuesto" == some "002" then (acc.1, acc.2.1 + v, acc.2.2)
  else if r.getAttr "Impuesto" == some "003" then (acc.1, acc.2.1, acc.2.2 + v)
  else acc

/-- Bump a key of a per-line tax dictionary:
`d[imp] = d.get(imp, 0.0) + v`. -/
def taxDictAdd (m : List (Option String × ℚ)) (k : Option String) (v : ℚ) :
    List (Option String × ℚ) :=
  if m.any (fun p => p.1 == k) then
    m.map (fun p => if p.1 == k then (p.1, p.2 + v) else p)
  else m ++ [(k, v)]

/-- One step of a line-item `Traslado` loop over
`(impuestos_traslado, Δiva_trasladado, Δieps)`. -/
def lineTrasladoStep (st : List (Option String × ℚ) × ℚ × ℚ) (t : XmlElem) :
    List (Option String × ℚ) × ℚ × ℚ :=
  let imp := t.getAttr "Impuesto"
  let v := pySafeFloat (t.getAttr "Importe")
  let d := taxDictAdd st.1 imp v
  if imp == some "002" then (d, st.2.1 + v, st.2.2)
  else if imp == some "003" then (d, st.2.1, st.2.2 + v)
  else (d, st.2.1, st.2.2)

/-- One step of a line-item `Retencion` loop over
`(impuestos_retencion, Δisr_retenido, Δiva_retenido, Δieps)`. -/
def lineRetencionStep (st : List (Option String × ℚ) × ℚ × ℚ × ℚ) (r : XmlElem) :
    List (Option String × ℚ) × ℚ × ℚ × ℚ :=
  let imp := r.getAttr "Impuesto"
  let v := pySafeFloat (r.getAttr "Importe")
  let d := taxDictAdd st.1 imp v
  if imp == some "001" then (d, st.2.1 + v, st.2.2.1, st.2.2.2)
  else if imp == some "002" then (d, st.2.1, st.2.2.1 + v, st.2.2.2)
  else if imp == some "003" then (d, st.2.1, st.2.2.1, st.2.2.2 + v)
  else (d, st.2.1, st.2.2.1, st.2.2.2)

/-- The `Traslado` elements of a line item's own `Impuestos` block. -/
def lineTrasladoEls (uri : String) (el : XmlElem) : List XmlElem :=
  match firstChildNamed uri el "Impuestos" with
  | none => []
  | some imp =>
    match firstChildNamed uri imp "Traslados" with
    | none => []
    | some ts => childrenNamed uri ts "Traslado"

/-- The `Retencion` elements of a line item's own `Impuestos` block. -/
def lineRetencionEls (uri : String) (el : XmlElem) : List XmlElem :=
  match firstChildNamed uri el "Impuestos" with
  | none => []
  | some imp =>
    match firstChildNamed uri imp "Retenciones" with
    | none => []
    | some rs => childrenNamed uri rs "Retencion"

/-- Processing of one `Concepto` element: the built line item together with
the deltas `(Δiva_trasladado, Δisr_retenido, Δiva_retenido, Δieps)` it adds
to the document-level totals. -/
def processConcepto (uri uuid : String) (el : XmlElem) :
    Concepto × ℚ × ℚ × ℚ × ℚ :=
  let tras := (lineTrasladoEls uri el).foldl lineTrasladoStep ([], 0, 0)
  let ret := (lineRetencionEls uri el).foldl lineRetencionStep ([], 0, 0, 0)
  ({ uuid := uuid
     clave_prod_serv := pyOrStr (el.getAttr "ClaveProdServ") ""
     cantidad := pySafeFloat (el.getAttr "Cantidad")
     clave_unidad := pyOrStr (el.getAttr "ClaveUnidad") ""
     unidad := pyOrStr (el.getAttr "Unidad") ""
     descripcion := pyOrStr (el.getAttr "Descripcion") ""
     valor_unitario := pySafeFloat (el.getAttr "ValorUnitario")
     importe := pySafeFloat (el.getAttr "Importe")
     descuento := pySafeFloat (el.getAttr "Descuento")
     impuestos_traslado := tras.1
     impuestos_retencion := ret.1 },
   tras.2.1, ret.2.1, ret.2.2.1, tras.2.2 + ret.2.2.2)

/-- The document-level `Traslado` elements. -/
def docTrasladoEls (uri : String) (root : XmlElem) : List XmlElem :=
  match firstChildNamed uri root "Impuestos" with
  | none => []
  | some imp =>
    match firstChildNamed uri imp "Traslados" with
    | none => []
    | some ts => childrenNamed uri ts "Traslado"

/-- The document-level `Retencion` elements. -/
def docRetencionEls (uri : String) (root : XmlElem) : List XmlElem :=
  match firstChildNamed uri root "Impuestos" with
  | none => []
  | some imp =>
    match firstChildNamed uri imp "Retenciones" with
    | none => []
    | some rs => childrenNamed uri rs "Retencion"

/-- The `Concepto` elements under `Conceptos`. -/
def conceptoEls (uri : String) (root : XmlElem) : List XmlElem :=
  match firstChildNamed uri root "Conceptos" with
  | none => []
  | some cp => childrenNamed uri cp "Concepto"

/-- One step of the `Conceptos` loop, threading the concept list and the four
document-level tax accumulators exactly as the Python loop does. -/
def conceptosStep (uri uuid : String)
    (st : List Concepto × ℚ × ℚ × ℚ × ℚ) (el : XmlElem) :
    List Concepto × ℚ × ℚ × ℚ × ℚ :=
  let p := processConcepto uri uuid el
  (st.1 ++ [p.1], st.2.1 + p.2.1, st.2.2.1 + p.2.2.1,
   st.2.2.2.1 + p.2.2.2.1, st.2.2.2.2 + p.2.2.2.2)

/-- Construction of the record and line items for an accepted document
(`parse_cfdi` lines 65-208): everything after the rejection checks. -/
def buildRecord (uri : String) (root : XmlElem) (tipo uuid : String) :
    CFDI × List Concepto :=
  let version := pyOrStr (root.getAttr "Version") (pyOrStr (root.getAttr "version") "")
  let warnings := if pyStartsWith version "3.3" then [cfdi33Warning] else []
  let fecha := parse_iso_datetime (pyOrStr (root.getAttr "Fecha")
    (pyOrStr (root.getAttr "fecha") ""))
  let emisorNode := firstChildNamed uri root "Emisor"
  let receptorNode := firstChildNamed uri root "Receptor"
  let docIva := (docTrasladoEls uri root).foldl docTrasladoStep 0
  let docRet := (docRetencionEls uri root).foldl docRetencionStep (0, 0, 0)
  let acc := (conceptoEls uri root).foldl (conceptosStep uri uuid)
    ([], docIva, docRet.1, docRet.2.1, docRet.2.2)
  ({ uuid := uuid
     fecha := fecha
     tipo := tipo
     serie := pyOrStr (root.getAttr "Serie") ""
     folio := pyOrStr (root.getAttr "Folio") ""
     emisor_rfc := match emisorNode with
       | none => ""
       | some e => pyOrStr (e.getAttr "Rfc") ""
     emisor_nombre := match emisorNode with
       | none => ""
       | some e => pyOrStr (e.getAttr "Nombre") ""
     emisor_regimen := match emisorNode with
       | none => ""
       | some e => pyOrStr (e.getAttr "RegimenFiscal") ""
     receptor_rfc := match receptorNode with
       | none => ""
       | some e => pyOrStr (e.getAttr "Rfc") ""
     receptor_nombre := match receptorNode with
       | none => ""
       | some e => pyOrStr (e.getAttr "Nombre") ""
     receptor_regimen := match receptorNode with
       | none => ""
       | some e => pyOrStr (e.getAttr "RegimenFiscalReceptor") ""
     uso_cfdi := match receptorNode with
       | none => ""
       | some e => pyOrStr (e.getAttr "UsoCFDI") ""
     subtotal := pySafeFloat (root.getAttr "SubTotal")
     descuento := pySafeFloat (root.getAttr "Descuento")
     total := pySafeFloat (root.getAttr "Total")
     moneda := pyOrStr (root.getAttr "Moneda") "MXN"
     tipo_cambio := pySafeFloat (root.getAttr "TipoCambio")
     forma_pago := pyOrStr (root.getAttr "FormaPago") ""
     metodo_pago := pyOrStr (root.getAttr "MetodoPago") ""
     lugar_expedicion := pyOrStr (root.getAttr "LugarExpedicion") ""
     iva_trasladado := acc.2.1
     isr_retenido := acc.2.2.1
     iva_retenido := acc.2.2.2.1
     ieps := acc.2.2.2.2
     num_conceptos := acc.1.length
     version := version
     warnings := warnings },
   acc.1)

/-- Embedding of `parse_cfdi`.  The result is `Except` because the path
evaluation of `find` raises `SyntaxError` when the alias `cfdi` is not in the
prefix map, and nothing in the function catches it; `.ok (none, [])` is the
silent rejection `(None, [])`. -/
def parse_cfdi (doc : XmlDoc) : Except String (Option CFDI × List Concepto) :=
  let root := doc.root
  let tipo := tipoOf root
  if tipo == "P" then .ok (none, [])
  else
    match cfdiUriOf doc with
    | none => .error "SyntaxError: unresolved path alias cfdi"
    | some cfdiUri =>
      let uuid := extractUuid cfdiUri (tfdUriOf doc) root
      if uuid == "" then .ok (none, [])
      else
        let rc := buildRecord cfdiUri root tipo uuid
        .ok (some rc.1, rc.2)

/-- Record component of a parse result, `none` on rejection or error. -/
def recordOf (x : Except String (Option CFDI × List Concepto)) : Option CFDI :=
  match x with
  | .ok p => p.1
  | .error _ => none

/-- Line-item component of a parse result, `[]` on rejection or error. -/
def conceptsOf (x : Except String (Option CFDI × List Concepto)) : List Concepto :=
  match x with
  | .ok p => p.2
  | .error _ => []

/-! ## Tax sums read off the document tree

These sums are computed directly from the XML structure, independently of the
parser's accumulator loops; the theorems below relate the two. -/

/-- Sum of the `Importe` values of the entries of `l` whose `Impuesto`
attribute equals `code`. -/
def taxSum (code : String) (l : List XmlElem) : ℚ :=
  ((l.filter (fun t => t.getAttr "Impuesto" == some code)).map
    (fun t => pySafeFloat (t.getAttr "Importe"))).sum

/-- Total over all line items of a tax code inside their `Traslados`. -/
def lineTrasladoTotal (code uri : String) (root : XmlElem) : ℚ :=
  ((conceptoEls uri root).map (fun el => taxSum code (lineTrasladoEls uri el))).sum

/-- Total over all line items of a tax code inside their `Retenciones`. -/
def lineRetencionTotal (code uri : String) (root : XmlElem) : ℚ :=
  ((conceptoEls uri root).map (fun el => taxSum code (lineRetencionEls uri el))).sum

/-! ## KPI aggregation (`app/kpis.py`) -/

/-- Bump a key of a `defaultdict(float)`: `m[k] += v`, inserting the key at
the end when new. -/
def bumpKey (m : List (String × ℚ)) (k : String) (v : ℚ) : List (String × ℚ) :=
  if m.any (fun p => p.1 == k) then
    m.map (fun p => if p.1 == k then (p.1, p.2 + v) else p)
  else m ++ [(k, v)]

/-- Accumulator state of the `compute_kpis` loop. -/
structure KpiAcc where
  total_ingresos : ℚ
  total_egresos : ℚ
  iva_trasladado : ℚ
  isr_retenido : ℚ
  iva_retenido : ℚ
  ieps : ℚ
  count_ingresos : Nat
  count_egresos : Nat
  ingresos_por_mes : List (String × ℚ)
  egresos_por_mes : List (String × ℚ)
  clientes : List (String × ℚ)
  proveedores : List (String × ℚ)
deriving DecidableEq

/-- Initial accumulator state. -/
def kpiInit : KpiAcc :=
  ⟨0, 0, 0, 0, 0, 0, 0, 0, [], [], [], []⟩

/-- One iteration of the `compute_kpis` loop over one record: the directional
totals, counters, month buckets and counterparty sums are gated on the
classification label, while the four tax totals accumulate unconditionally. -/
def kpiStep (st : KpiAcc) (c : CFDI) : KpiAcc :=
  let month := month_key c.fecha
  let st1 :=
    if c.clasificacion == "Ingresos" then
      { st with
        total_ingresos := st.total_ingresos + c.total
        count_ingresos := st.count_ingresos + 1
        ingresos_por_mes := bumpKey st.ingresos_por_mes month c.total
        clientes := bumpKey st.clientes c.receptor_rfc c.total }
    else if c.clasificacion == "Egresos" then
      { st with
        total_egresos := st.total_egresos + c.total
        count_egresos := st.count_egresos + 1
        egresos_por_mes := bumpKey st.egresos_por_mes month c.total
        proveedores := bumpKey st.proveedores c.emisor_rfc c.total }
    else st
  { st1 with
    iva_trasladado := st1.iva_trasladado + c.iva_trasladado
    isr_retenido := st1.isr_retenido + c.isr_retenido
    iva_retenido := st1.iva_retenido + c.iva_retenido
    ieps := st1.ieps + c.ieps }

/-- Descending sort by summed total, first five entries. -/
def top5 (m : List (String × ℚ)) : List (String × ℚ) :=
  (List.insertionSort (fun a b => b.2 ≤ a.2) m).take 5

/-- The KPI snapshot returned by `compute_kpis`. -/
structure KPIs where
  total_ingresos : ℚ
  total_egresos : ℚ
  neto : ℚ
  iva_trasladado : ℚ
  isr_retenido : ℚ
  iva_retenido : ℚ
  ieps : ℚ
  conteo_cfdi : Nat
  ingresos_por_mes : List (String × ℚ)
  egresos_por_mes : List (String × ℚ)
  top_clientes : List (String × ℚ)
  top_proveedores : List (String × ℚ)
  calidad_invalidos : Nat
  calidad_duplicados : Nat
  calidad_cfdi33 : Nat
deriving DecidableEq

/-- Embedding of `compute_kpis`. -/
def compute_kpis (cfdis : List CFDI)
    (invalid_count duplicates_count cfdi33_count : Nat) : KPIs :=
  let st := cfdis.foldl kpiStep kpiInit
  { total_ingresos := st.total_ingresos
    total_egresos := st.total_egresos
    neto := st.total_ingresos - st.total_egresos
    iva_trasladado := st.iva_trasladado
    isr_retenido := st.isr_retenido
    iva_retenido := st.iva_retenido
    ieps := st.ieps
    conteo_cfdi := st.count_ingresos + st.count_egresos
    ingresos_por_mes := st.ingresos_por_mes
    egresos_por_mes := st.egresos_por_mes
    top_clientes := top5 st.clientes
    top_proveedores := top5 st.proveedores
    calidad_invalidos := invalid_count
    calidad_duplicados := duplicates_count
    calidad_cfdi33 := cfdi33_count }

/-! ## Batch scanner (`app/scanner.py`)

`XMLScanner._run` is a sequential loop on the worker thread; its observable
behaviour is the ordered trace of `progress` signals followed by the final
`finished` signal.  The file system and the parser are abstracted by a list
of inputs and a parse function on them. -/

/-- One emitted signal. -/
inductive ScanEvent : Type where
  | progress : Nat → Nat → Nat → Nat → Nat → ScanEvent
  | finished : List CFDI → List Concepto → ScanEvent
deriving DecidableEq

/-- Whether an event is a `progress` signal. -/
def ScanEvent.isProg : ScanEvent → Bool
  | .progress _ _ _ _ _ => true
  | .finished _ _ => false

/-- Whether an event is the `finished` signal. -/
def ScanEvent.isFin : ScanEvent → Bool
  | .progress _ _ _ _ _ => false
  | .finished _ _ => true

/-- Loop state of `XMLScanner._run`. -/
structure ScanState where
  processed : Nat
  invalid : Nat
  duplicates : Nat
  cfdi33 : Nat
  uuids_seen : List String
  cfdis : List CFDI
  concepts_all : List Concepto
deriving DecidableEq

/-- Initial loop state. -/
def scanInit : ScanState :=
  ⟨0, 0, 0, 0, [], [], []⟩

/-- The loop body on one successfully parsed file: count invalid,
deduplicate by UUID, classify, count legacy schemas, accumulate results,
bump `processed`. -/
def scanFileOk (user_rfc : String) (st : ScanState)
    (pr : Option CFDI × List Concepto) : ScanState :=
  let st1 :=
    match pr.1 with
    | none => { st with invalid := st.invalid + 1 }
    | some cfdi =>
      if st.uuids_seen.contains cfdi.uuid then
        { st with duplicates := st.duplicates + 1 }
      else
        let cfdi1 := { cfdi with clasificacion := classify_cfdi (some cfdi) user_rfc }
        { st with
          uuids_seen := st.uuids_seen ++ [cfdi1.uuid]
          cfdi33 := if pyStartsWith cfdi1.version "3.3" then st.cfdi33 + 1 else st.cfdi33
          cfdis := st.cfdis ++ [cfdi1]
          concepts_all := st.concepts_all ++ pr.2 }
  { st1 with processed := st.processed + 1 }

/-- Processing of one file.  The loop calls the parser unguarded, so a parse
call that raises (see `parse_cfdi` on documents without a resolvable `cfdi`
alias) propagates out of the loop body. -/
def scanFileStep {α : Type}
    (parseFn : α → Except String (Option CFDI × List Concepto))
    (user_rfc : String) (st : ScanState) (file : α) : Except String ScanState :=
  match parseFn file with
  | .error e => .error e
  | .ok pr => .ok (scanFileOk user_rfc st pr)

/-- The per-file loop: the `progress` events actually emitted, in order,
together with either the final state or the escaping exception — which
aborts the loop at once, emitting nothing further. -/
def scanLoop {α : Type} (parseFn : α → Except String (Option CFDI × List Concepto))
    (user_rfc : String) (total : Nat) :
    ScanState → List α → List ScanEvent × Except String ScanState
  | st, [] => ([], .ok st)
  | st, f :: fs =>
    match scanFileStep parseFn user_rfc st f with
    | .error e => ([], .error e)
    | .ok st1 =>
      let rest := scanLoop parseFn user_rfc total st1 fs
      (ScanEvent.progress st1.processed st1.invalid st1.duplicates st1.cfdi33 total
         :: rest.1, rest.2)

/-- Embedding of `XMLScanner._run`: the ordered trace of signals one batch
run emits.  The `finished` signal fires only when the loop runs to
completion; an exception escaping a parse call ends the run with no further
signals. -/
def scanner_run {α : Type} (parseFn : α → Except String (Option CFDI × List Concepto))
    (user_rfc : String) (files : List α) : List ScanEvent :=
  match scanLoop parseFn user_rfc files.length scanInit files with
  | (evs, .ok st) => evs ++ [ScanEvent.finished st.cfdis st.concepts_all]
  | (evs, .error _) => evs

/-- Componentwise order on `progress` events: counters non-decreasing, the
total component equal. -/
def progLE : ScanEvent → ScanEvent → Prop
  | .progress p1 i1 d1 c1 t1, .progress p2 i2 d2 c2 t2 =>
    p1 ≤ p2 ∧ i1 ≤ i2 ∧ d1 ≤ d2 ∧ c1 ≤ c2 ∧ t1 = t2
  | _, _ => False

/-- A `progress` event dominating a state: every counter at least the
state's, with a fixed total component. -/
def stateLE (total : Nat) (st : ScanState) : ScanEvent → Prop
  | .progress p i d c t =>
    st.processed ≤ p ∧ st.invalid ≤ i ∧ st.duplicates ≤ d ∧ st.cfdi33 ≤ c ∧ t = total
  | .finished _ _ => False

/-! ## Concrete documents -/

/-- Namespace URI of the CFDI 4.0 schema. -/
def cfd4NS : String := "http://www.sat.gob.mx/cfd/4"

/-- The line item of the end-to-end document of the repository test
(`tests/test_parser.py`): one concept with a 16.0 VAT transfer. -/
def sampleConceptoEl : XmlElem :=
  .node cfd4NS "Concepto"
    [("ClaveProdServ", "01010101"), ("Cantidad", "1"), ("ClaveUnidad", "E48"),
     ("Unidad", "Servicio"), ("Descripcion", "Servicio de prueba"),
     ("ValorUnitario", "100"), ("Importe", "100")]
    [.node cfd4NS "Impuestos" []
      [.node cfd4NS "Traslados" []
        [.node cfd4NS "Traslado"
          [("Base", "100"), ("Impuesto", "002"), ("TipoFactor", "Tasa"),
           ("TasaOCuota", "0.160000"), ("Importe", "16")] []]]]

/-- The end-to-end CFDI 4.0 document of the repository test: type `I`,
issuer `AAA010101AAA`, receiver `BBB010101BBB`, total 116.0, one line item,
one document-level VAT transfer of 16.0. -/
def sampleCfdi40 : XmlDoc :=
  { root := .node cfd4NS "Comprobante"
      [("Version", "4.0"), ("Fecha", "2023-01-31T12:00:00"), ("Serie", "A"),
       ("Folio", "1"), ("TipoDeComprobante", "I"), ("SubTotal", "100"),
       ("Total", "116"), ("Moneda", "MXN"), ("FormaPago", "01"),
       ("MetodoPago", "PUE"), ("LugarExpedicion", "99999")]
      [.node cfd4NS "Emisor"
        [("Rfc", "AAA010101AAA"), ("Nombre", "Emisor SA de CV"),
         ("RegimenFiscal", "601")] [],
       .node cfd4NS "Receptor"
        [("Rfc", "BBB010101BBB"), ("Nombre", "Receptor SA de CV"),
         ("UsoCFDI", "G03"), ("RegimenFiscalReceptor", "601")] [],
       .node cfd4NS "Conceptos" [] [sampleConceptoEl],
       .node cfd4NS "Impuestos" []
        [.node cfd4NS "Traslados" []
          [.node cfd4NS "Traslado"
            [("Impuesto", "002"), ("TipoFactor", "Tasa"),
             ("TasaOCuota", "0.160000"), ("Importe", "16")] []]],
       .node cfd4NS "Complemento" []
        [.node tfdNS "TimbreFiscalDigital"
          [("Version", "1.1"), ("UUID", "12345678-1234-1234-1234-123456789012"),
           ("FechaTimbrado", "2023-01-31T12:00:00"),
           ("RfcProvCertif", "AAA010101AAA")] []]]
    nsdecls := [(some "cfdi", cfd4NS), (some "tfd", tfdNS)] }

/-- The record parsed from the end-to-end document. -/
def sampleRecord : Option CFDI :=
  recordOf (parse_cfdi sampleCfdi40)

/-- A well-formed document with no namespace declarations at all: type `I`,
no default namespace, no `cfdi` alias. -/
def noNsDoc : XmlDoc :=
  { root := .node "" "Comprobante" [("TipoDeComprobante", "I")] []
    nsdecls := [] }

/-- A valid document whose only tax content is one document-level withheld
entry with tax code `001` (withheld income tax) of amount 10.0. -/
def docRet001 : XmlDoc :=
  { root := .node cfd4NS "Comprobante"
      [("Version", "4.0"), ("TipoDeComprobante", "I"), ("Total", "100")]
      [.node cfd4NS "Impuestos" []
        [.node cfd4NS "Retenciones" []
          [.node cfd4NS "Retencion" [("Impuesto", "001"), ("Importe", "10")] []]],
       .node cfd4NS "Complemento" []
        [.node tfdNS "TimbreFiscalDigital"
          [("UUID", "AAAAAAAA-0000-0000-0000-000000000001")] []]]
    nsdecls := [(some "cfdi", cfd4NS), (some "tfd", tfdNS)] }

/-- A minimal record for concrete classifier inputs. -/
def mkTestCFDI (tipo emisor receptor : String) : CFDI :=
  { uuid := "00000000-0000-0000-0000-000000000000"
    fecha := none
    tipo := tipo
    serie := ""
    folio := ""
    emisor_rfc := emisor
    emisor_nombre := ""
    emisor_regimen := ""
    receptor_rfc := receptor
    receptor_nombre := ""
    receptor_regimen := ""
    uso_cfdi := ""
    subtotal := 0
    descuento := 0
    total := 0
    moneda := "MXN"
    tipo_cambio := 0
    forma_pago := ""
    metodo_pago := ""
    lugar_expedicion := ""
    iva_trasladado := 0
    isr_retenido := 0
    iva_retenido := 0
    ieps := 0
    num_conceptos := 0
    version := "4.0"
    warnings := [] }

/-- Classification test used by the aggregation loop. -/
def esIngreso (c : CFDI) : Bool :=
  c.clasificacion == "Ingresos"

/-- Classification test used by the aggregation loop. -/
def esEgreso (c : CFDI) : Bool :=
  c.clasificacion == "Egresos"

/-- Month-bucket bump of one record's total. -/
def bumpMes (m : List (String × ℚ)) (c : CFDI) : List (String × ℚ) :=
  bumpKey m (month_key c.fecha) c.total

/-- Customer-sum bump of one record's total, keyed by the receiver tax-id. -/
def bumpCliente (m : List (String × ℚ)) (c : CFDI) : List (String × ℚ) :=
  bumpKey m c.receptor_rfc c.total

/-- Supplier-sum bump of one record's total, keyed by the issuer tax-id. -/
def bumpProveedor (m : List (String × ℚ)) (c : CFDI) : List (String × ℚ) :=
  bumpKey m c.emisor_rfc c.total

/-! ## Fold characterizations of the parser accumulators -/

/-- The document-level `Traslado` loop adds exactly the VAT (`002`) sum. -/
theorem docTraslado_fold (l : List XmlElem) (a : ℚ) :
    l.foldl docTrasladoStep a = a + taxSum "002" l := by
  induction l generalizing a with
  | nil => simp [taxSum]
  | cons t l ih =>
    rw [List.foldl_cons, ih]
    unfold docTrasladoStep
    by_cases h : t.getAttr "Impuesto" == some "002"
    · simp only [h, if_true, taxSum, List.filter_cons, List.map_cons, List.sum_cons]
      ring
    · simp only [h, if_false, Bool.false_eq_true, taxSum, List.filter_cons]

/-- The document-level `Retencion` loop adds the `001`, `002` and `003`
sums to its three accumulators respectively. -/
theorem docRetencion_fold (l : List XmlElem) (a b c : ℚ) :
    l.foldl docRetencionStep (a, b, c) =
      (a + taxSum "001" l, b + taxSum "002" l, c + taxSum "003" l) := by
  induction l generalizing a b c with
  | nil => simp [taxSum]
  | cons r l ih =>
    rw [List.foldl_cons]
    by_cases h1 : r.getAttr "Impuesto" == some "001"
    · have e1 : r.getAttr "Impuesto" = some "001" := by simpa using h1
      have hstep : docRetencionStep (a, b, c) r =
          (a + pySafeFloat (r.getAttr "Importe"), b, c) := by
        simp [docRetencionStep, e1]
      have t1 : taxSum "001" (r :: l) =
          pySafeFloat (r.getAttr "Importe") + taxSum "001" l := by
        simp [taxSum, List.filter_cons, e1]
      have t2 : taxSum "002" (r :: l) = taxSum "002" l := by
        simp [taxSum, List.filter_cons, e1]
      have t3 : taxSum "003" (r :: l) = taxSum "003" l := by
        simp [taxSum, List.filter_cons, e1]
      rw [hstep, ih, t1, t2, t3, add_assoc]
    · by_cases h2 : r.getAttr "Impuesto" == some "002"
      · have e2 : r.getAttr "Impuesto" = some "002" := by simpa using h2
        have hstep : docRetencionStep (a, b, c) r =
            (a, b + pySafeFloat (r.getAttr "Importe"), c) := by
          simp [docRetencionStep, e2]
        have t1 : taxSum "001" (r :: l) = taxSum "001" l := by
          simp [taxSum, List.filter_cons, e2]
        have t2 : taxSum "002" (r :: l) =
            pySafeFloat (r.getAttr "Importe") + taxSum "002" l := by
          simp [taxSum, List.filter_cons, e2]
        have t3 : taxSum "003" (r :: l) = taxSum "003" l := by
          simp [taxSum, List.filter_cons, e2]
        rw [hstep, ih, t1, t2, t3, add_assoc]
      · by_cases h3 : r.getAttr "Impuesto" == some "003"
        · have e3 : r.getAttr "Impuesto" = some "003" := by simpa using h3
          have hstep : docRetencionStep (a, b, c) r =
              (a, b, c + pySafeFloat (r.getAttr "Importe")) := by
            simp [docRetencionStep, e3]
          have t1 : taxSum "001" (r :: l) = taxSum "001" l := by
            simp [taxSum, List.filter_cons, e3]
          have t2 : taxSum "002" (r :: l) = taxSum "002" l := by
            simp [taxSum, List.filter_cons, e3]
          have t3 : taxSum "003" (r :: l) =
              pySafeFloat (r.getAttr "Importe") + taxSum "003" l := by
            simp [taxSum, List.filter_cons, e3]
          rw [hstep, ih, t1, t2, t3, add_assoc]
        · have hstep : docRetencionStep (a, b, c) r = (a, b, c) := by
            simp [docRetencionStep, h1, h2, h3]
          have t1 : taxSum "001" (r :: l) = taxSum "001" l := by
            simp [taxSum, List.filter_cons, h1]
          have t2 : taxSum "002" (r :: l) = taxSum "002" l := by
            simp [taxSum, List.filter_cons, h2]
          have t3 : taxSum "003" (r :: l) = taxSum "003" l := by
            simp [taxSum, List.filter_cons, h3]
          rw [hstep, ih, t1, t2, t3]

/-- The line-item `Traslado` loop adds the `002` sum to its VAT accumulator
and the `003` sum to its excise accumulator. -/
theorem lineTraslado_fold (l : List XmlElem) (d : List (Option String × ℚ)) (i e : ℚ) :
    (l.foldl lineTrasladoStep (d, i, e)).2.1 = i + taxSum "002" l ∧
    (l.foldl lineTrasladoStep (d, i, e)).2.2 = e + taxSum "003" l := by
  induction l generalizing d i e with
  | nil => simp [taxSum]
  | cons t l ih =>
    rw [List.foldl_cons]
    by_cases h2 : t.getAttr "Impuesto" == some "002"
    · have e2 : t.getAttr "Impuesto" = some "002" := by simpa using h2
      have hstep : lineTrasladoStep (d, i, e) t =
          (taxDictAdd d (t.getAttr "Impuesto") (pySafeFloat (t.getAttr "Importe")),
           i + pySafeFloat (t.getAttr "Importe"), e) := by
        simp [lineTrasladoStep, e2]
      have t2 : taxSum "002" (t :: l) =
          pySafeFloat (t.getAttr "Importe") + taxSum "002" l := by
        simp [taxSum, List.filter_cons, e2]
      have t3 : taxSum "003" (t :: l) = taxSum "003" l := by
        simp [taxSum, List.filter_cons, e2]
      rw [hstep, t2, t3]
      refine ⟨?_, ?_⟩
      · rw [(ih _ _ _).1]; ring
      · rw [(ih _ _ _).2]
    · by_cases h3 : t.getAttr "Impuesto" == some "003"
      · have e3 : t.getAttr "Impuesto" = some "003" := by simpa using h3
        have hstep : lineTrasladoStep (d, i, e) t =
            (taxDictAdd d (t.getAttr "Impuesto") (pySafeFloat (t.getAttr "Importe")),
             i, e + pySafeFloat (t.getAttr "Importe")) := by
          simp [lineTrasladoStep, e3]
        have t2 : taxSum "002" (t :: l) = taxSum "002" l := by
          simp [taxSum, List.filter_cons, e3]
        have t3 : taxSum "003" (t :: l) =
            pySafeFloat (t.getAttr "Importe") + taxSum "003" l := by
          simp [taxSum, List.filter_cons, e3]
        rw [hstep, t2, t3]
        refine ⟨?_, ?_⟩
        · rw [(ih _ _ _).1]
        · rw [(ih _ _ _).2]; ring
      · have hstep : lineTrasladoStep (d, i, e) t =
            (taxDictAdd d (t.getAttr "Impuesto") (pySafeFloat (t.getAttr "Importe")),
             i, e) := by
          simp [lineTrasladoStep, h2, h3]
        have t2 : taxSum "002" (t :: l) = taxSum "002" l := by
          simp [taxSum, List.filter_cons, h2]
        have t3 : taxSum "003" (t :: l) = taxSum "003" l := by
          simp [taxSum, List.filter_cons, h3]
        rw [hstep, t2, t3]
        exact ⟨(ih _ _ _).1, (ih _ _ _).2⟩

/-- The line-item `Retencion` loop adds the `001`, `002` and `003` sums to
its ISR, withheld-VAT and excise accumulators respectively. -/
theorem lineRetencion_fold (l : List XmlElem) (d : List (Option String × ℚ)) (s v e : ℚ) :
    (l.foldl lineRetencionStep (d, s, v, e)).2.1 = s + taxSum "001" l ∧
    (l.foldl lineRetencionStep (d, s, v, e)).2.2.1 = v + taxSum "002" l ∧
    (l.foldl lineRetencionStep (d, s, v, e)).2.2.2 = e + taxSum "003" l := by
  induction l generalizing d s v e with
  | nil => simp [taxSum]
  | cons r l ih =>
    rw [List.foldl_cons]
    by_cases h1 : r.getAttr "Impuesto" == some "001"
    · have e1 : r.getAttr "Impuesto" = some "001" := by simpa using h1
      have hstep : lineRetencionStep (d, s, v, e) r =
          (taxDictAdd d (r.getAttr "Impuesto") (pySafeFloat (r.getAttr "Importe")),
           s + pySafeFloat (r.getAttr "Importe"), v, e) := by
        simp [lineRetencionStep, e1]
      have t1 : taxSum "001" (r :: l) =
          pySafeFloat (r.getAttr "Importe") + taxSum "001" l := by
        simp [taxSum, List.filter_cons, e1]
      have t2 : taxSum "002" (r :: l) = taxSum "002" l := by
        simp [taxSum, List.filter_cons, e1]
      have t3 : taxSum "003" (r :: l) = taxSum "003" l := by
        simp [taxSum, List.filter_cons, e1]
      rw [hstep, t1, t2, t3]
      refine ⟨?_, ?_, ?_⟩
      · rw [(ih _ _ _ _).1]; ring
      · rw [(ih _ _ _ _).2.1]
      · rw [(ih _ _ _ _).2.2]
    · by_cases h2 : r.getAttr "Impuesto" == some "002"
      · have e2 : r.getAttr "Impuesto" = some "002" := by simpa using h2
        have hstep : lineRetencionStep (d, s, v, e) r =
            (taxDictAdd d (r.getAttr "Impuesto") (pySafeFloat (r.getAttr "Importe")),
             s, v + pySafeFloat (r.getAttr "Importe"), e) := by
          simp [lineRetencionStep, h1, e2]
        have t1 : taxSum "001" (r :: l) = taxSum "001" l := by
          simp [taxSum, List.filter_cons, e2]
        have t2 : taxSum "002" (r :: l) =
            pySafeFloat (r.getAttr "Importe") + taxSum "002" l := by
          simp [taxSum, List.filter_cons, e2]
        have t3 : taxSum "003" (r :: l) = taxSum "003" l := by
          simp [taxSum, List.filter_cons, e2]
        rw [hstep, t1, t2, t3]
        refine ⟨?_, ?_, ?_⟩
        · rw [(ih _ _ _ _).1]
        · rw [(ih _ _ _ _).2.1]; ring
        · rw [(ih _ _ _ _).2.2]
      · by_cases h3 : r.getAttr "Impuesto" == some "003"
        · have e3 : r.getAttr "Impuesto" = some "003" := by simpa using h3
          have hstep : lineRetencionStep (d, s, v, e) r =
              (taxDictAdd d (r.getAttr "Impuesto") (pySafeFloat (r.getAttr "Importe")),
               s, v, e + pySafeFloat (r.getAttr "Importe")) := by
            simp [lineRetencionStep, h1, h2, e3]
          have t1 : taxSum "001" (r :: l) = taxSum "001" l := by
            simp [taxSum, List.filter_cons, e3]
          have t2 : taxSum "002" (r :: l) = taxSum "002" l := by
            simp [taxSum, List.filter_cons, e3]
          have t3 : taxSum "003" (r :: l) =
              pySafeFloat (r.getAttr "Importe") + taxSum "003" l := by
            simp [taxSum, List.filter_cons, e3]
          rw [hstep, t1, t2, t3]
          refine ⟨?_, ?_, ?_⟩
          · rw [(ih _ _ _ _).1]
          · rw [(ih _ _ _ _).2.1]
          · rw [(ih _ _ _ _).2.2]; ring
        · have hstep : lineRetencionStep (d, s, v, e) r =
              (taxDictAdd d (r.getAttr "Impuesto") (pySafeFloat (r.getAttr "Importe")),
               s, v, e) := by
            simp [lineRetencionStep, h1, h2, h3]
          have t1 : taxSum "001" (r :: l) = taxSum "001" l := by
            simp [taxSum, List.filter_cons, h1]
          have t2 : taxSum "002" (r :: l) = taxSum "002" l := by
            simp [taxSum, List.filter_cons, h2]
          have t3 : taxSum "003" (r :: l) = taxSum "003" l := by
            simp [taxSum, List.filter_cons, h3]
          rw [hstep, t1, t2, t3]
          exact ⟨(ih _ _ _ _).1, (ih _ _ _ _).2.1, (ih _ _ _ _).2.2⟩

/-- VAT delta of one processed line item. -/
theorem processConcepto_iva (uri uuid : String) (el : XmlElem) :
    (processConcepto uri uuid el).2.1 = taxSum "002" (lineTrasladoEls uri el) := by
  simp only [processConcepto]
  simpa using (lineTraslado_fold (lineTrasladoEls uri el) [] 0 0).1

/-- ISR delta of one processed line item. -/
theorem processConcepto_isr (uri uuid : String) (el : XmlElem) :
    (processConcepto uri uuid el).2.2.1 = taxSum "001" (lineRetencionEls uri el) := by
  simp only [processConcepto]
  simpa using (lineRetencion_fold (lineRetencionEls uri el) [] 0 0 0).1

/-- Withheld-VAT delta of one processed line item. -/
theorem processConcepto_ivaRet (uri uuid : String) (el : XmlElem) :
    (processConcepto uri uuid el).2.2.2.1 = taxSum "002" (lineRetencionEls uri el) := by
  simp only [processConcepto]
  simpa using (lineRetencion_fold (lineRetencionEls uri el) [] 0 0 0).2.1

/-- Excise delta of one processed line item. -/
theorem processConcepto_ieps (uri uuid : String) (el : XmlElem) :
    (processConcepto uri uuid el).2.2.2.2 =
      taxSum "003" (lineTrasladoEls uri el) + taxSum "003" (lineRetencionEls uri el) := by
  simp only [processConcepto]
  rw [(lineTraslado_fold (lineTrasladoEls uri el) [] 0 0).2,
    (lineRetencion_fold (lineRetencionEls uri el) [] 0 0 0).2.2]
  ring

/-- The UUID stamped on one processed line item. -/
theorem processConcepto_uuid (uri uuid : String) (el : XmlElem) :
    (processConcepto uri uuid el).1.uuid = uuid := by
  simp only [processConcepto]

/-- The `Conceptos` loop appends the processed items and adds their four
deltas to the four accumulators. -/
theorem conceptos_fold (uri uuid : String) (l : List XmlElem)
    (cs : List Concepto) (i s v e : ℚ) :
    l.foldl (conceptosStep uri uuid) (cs, i, s, v, e) =
      (cs ++ l.map (fun el => (processConcepto uri uuid el).1),
       i + (l.map (fun el => (processConcepto uri uuid el).2.1)).sum,
       s + (l.map (fun el => (processConcepto uri uuid el).2.2.1)).sum,
       v + (l.map (fun el => (processConcepto uri uuid el).2.2.2.1)).sum,
       e + (l.map (fun el => (processConcepto uri uuid el).2.2.2.2)).sum) := by
  induction l generalizing cs i s v e with
  | nil => simp
  | cons el l ih =>
    rw [List.foldl_cons]
    have hstep : conceptosStep uri uuid (cs, i, s, v, e) el =
        (cs ++ [(processConcepto uri uuid el).1],
         i + (processConcepto uri uuid el).2.1,
         s + (processConcepto uri uuid el).2.2.1,
         v + (processConcepto uri uuid el).2.2.2.1,
         e + (processConcepto uri uuid el).2.2.2.2) := rfl
    rw [hstep, ih]
    simp [List.append_assoc, add_assoc]

/-- Sums over a pointwise-added map split. -/
theorem sum_map_add {α : Type} (l : List α) (f g : α → ℚ) :
    (l.map (fun x => f x + g x)).sum = (l.map f).sum + (l.map g).sum := by
  induction l with
  | nil => simp
  | cons x l ih => simp [ih]; ring

/-- An accepted parse pins down the resolved namespace URI and exhibits the
result as `buildRecord` applied to the extracted type and UUID. -/
theorem parse_ok_inv (doc : XmlDoc) (r : CFDI) (cs : List Concepto)
    (h : parse_cfdi doc = .ok (some r, cs)) :
    ∃ uri, cfdiUriOf doc = some uri ∧
      (r, cs) = buildRecord uri doc.root (tipoOf doc.root)
        (extractUuid uri (tfdUriOf doc) doc.root) := by
  simp only [parse_cfdi] at h
  split at h
  · simp at h
  · split at h
    · simp at h
    · rename_i uri hu
      split at h
      · simp at h
      · simp only [Except.ok.injEq, Prod.mk.injEq, Option.some.injEq] at h
        exact ⟨uri, hu, by rw [← h.1, ← h.2]⟩

/-- The four tax totals of a built record, as filtered sums over the tree:
document-level `Traslado` entries count only under code `002`, while
document-level `Retencion` entries count under `001`, `002` and `003`; every
line item adds its own tax sums on top. -/
theorem buildRecord_taxes (uri : String) (root : XmlElem) (tipo uuid : String) :
    (buildRecord uri root tipo uuid).1.iva_trasladado =
      taxSum "002" (docTrasladoEls uri root) + lineTrasladoTotal "002" uri root ∧
    (buildRecord uri root tipo uuid).1.isr_retenido =
      taxSum "001" (docRetencionEls uri root) + lineRetencionTotal "001" uri root ∧
    (buildRecord uri root tipo uuid).1.iva_retenido =
      taxSum "002" (docRetencionEls uri root) + lineRetencionTotal "002" uri root ∧
    (buildRecord uri root tipo uuid).1.ieps =
      taxSum "003" (docRetencionEls uri root) + lineTrasladoTotal "003" uri root +
        lineRetencionTotal "003" uri root := by
  simp only [buildRecord]
  rw [docTraslado_fold, docRetencion_fold, conceptos_fold]
  simp only [lineTrasladoTotal, lineRetencionTotal, processConcepto_iva,
    processConcepto_isr, processConcepto_ivaRet, processConcepto_ieps]
  refine ⟨by ring, by ring, by ring, ?_⟩
  rw [sum_map_add]
  ring

/-- The line items of a built record are the processed `Concepto` elements in
document order; the record counts them and carries the stamped UUID. -/
theorem buildRecord_concepts (uri : String) (root : XmlElem) (tipo uuid : String) :
    (buildRecord uri root tipo uuid).2 =
      (conceptoEls uri root).map (fun el => (processConcepto uri uuid el).1) ∧
    (buildRecord uri root tipo uuid).1.num_conceptos =
      (buildRecord uri root tipo uuid).2.length ∧
    (buildRecord uri root tipo uuid).1.uuid = uuid := by
  simp only [buildRecord]
  rw [conceptos_fold]
  simp

/-- Claim C1: for every record and taxpayer id, `classify_cfdi` follows the
normalized three-way rule — `Ingresos` when the document type uppercases to
`I` and the normalized taxpayer id equals the normalized issuer tax-id,
`Egresos` when it instead equals the normalized receiver tax-id, and
`No clasificado` in every other case, including an absent record or an empty
taxpayer id; the function always returns one of the three labels. -/
theorem claim_C1_classifier_rule (c? : Option CFDI) (rfc : String) :
    (classify_cfdi c? rfc = "Ingresos" ∨ classify_cfdi c? rfc = "Egresos" ∨
      classify_cfdi c? rfc = "No clasificado") ∧
    (c? = none ∨ rfc = "" → classify_cfdi c? rfc = "No clasificado") ∧
    (∀ c, c? = some c → rfc ≠ "" → pyUpper c.tipo = "I" →
      pyUpper (pyStrip rfc) = pyUpper (pyStrip c.emisor_rfc) →
      classify_cfdi c? rfc = "Ingresos") ∧
    (∀ c, c? = some c → rfc ≠ "" → pyUpper c.tipo = "I" →
      pyUpper (pyStrip rfc) ≠ pyUpper (pyStrip c.emisor_rfc) →
      pyUpper (pyStrip rfc) = pyUpper (pyStrip c.receptor_rfc) →
      classify_cfdi c? rfc = "Egresos") ∧
    (∀ c, c? = some c → pyUpper c.tipo = "I" →
      pyUpper (pyStrip rfc) ≠ pyUpper (pyStrip c.emisor_rfc) →
      pyUpper (pyStrip rfc) ≠ pyUpper (pyStrip c.receptor_rfc) →
      classify_cfdi c? rfc = "No clasificado") ∧
    (∀ c, c? = some c → pyUpper c.tipo ≠ "I" →
      classify_cfdi c? rfc = "No clasificado") := by
  refine ⟨?_, ?_, ?_, ?_, ?_, ?_⟩
  · cases c? with
    | none => simp [classify_cfdi]
    | some c =>
      simp only [classify_cfdi]
      split_ifs <;> simp
  · rintro (rfl | rfl)
    · simp [classify_cfdi]
    · cases c? <;> simp [classify_cfdi]
  · rintro c rfl h0 ht he
    simp [classify_cfdi, h0, ht, he]
  · rintro c rfl h0 ht he hr
    have he2 : pyUpper (pyStrip c.receptor_rfc) ≠ pyUpper (pyStrip c.emisor_rfc) :=
      hr ▸ he
    simp [classify_cfdi, h0, ht, he, hr, he2]
  · rintro c rfl ht he hr
    by_cases h0 : rfc = ""
    · simp [classify_cfdi, h0]
    · simp [classify_cfdi, h0, ht, he, hr]
  · rintro c rfl ht
    by_cases h0 : rfc = ""
    · simp [classify_cfdi, h0]
    · simp [classify_cfdi, h0, ht]

/-- Witness for C1 at a concrete record: type `I`, issuer match after
trimming and uppercasing gives `Ingresos`. -/
theorem claim_C1_witness :
    classify_cfdi (some (mkTestCFDI "I" "AAA010101AAA" "BBB010101BBB"))
      " aaa010101aaa " = "Ingresos" :=
  (claim_C1_classifier_rule (some (mkTestCFDI "I" "AAA010101AAA" "BBB010101BBB"))
    " aaa010101aaa ").2.2.1 _ rfl (by simp) (by with_unfolding_all rfl)
    (by with_unfolding_all rfl)

/-- Counterexample to C2: on the end-to-end document (issuer `AAA010101AAA`,
receiver `BBB010101BBB`, type `I`), classifying with the receiver's id
`BBB010101BBB` does not yield `Ingresos`, and classifying with the issuer's
id `AAA010101AAA` does not yield `Egresos`. -/
theorem claim_C2_counterexample :
    classify_cfdi sampleRecord "BBB010101BBB" ≠ "Ingresos" ∧
    classify_cfdi sampleRecord "AAA010101AAA" ≠ "Egresos" := by
  constructor
  · intro h
    rw [show classify_cfdi sampleRecord "BBB010101BBB" = "Egresos" from rfl] at h
    simp at h
  · intro h
    rw [show classify_cfdi sampleRecord "AAA010101AAA" = "Ingresos" from rfl] at h
    simp at h

/-- Claim C2 as amended: the end-to-end document parses to a record with
total 116.0, and classifying it with the receiver's id `BBB010101BBB` yields
`Egresos` while classifying it with the issuer's id `AAA010101AAA` yields
`Ingresos` (the classifier labels by the issuer side, as its docstring and
the deliberate correction notes in the aggregation module state). -/
theorem claim_C2_amended :
    sampleRecord.isSome = true ∧
    sampleRecord.map CFDI.total = some 116 ∧
    sampleRecord.map CFDI.iva_trasladado = some 32 ∧
    classify_cfdi sampleRecord "BBB010101BBB" = "Egresos" ∧
    classify_cfdi sampleRecord "AAA010101AAA" = "Ingresos" :=
  ⟨rfl, by with_unfolding_all rfl, by with_unfolding_all rfl, rfl, rfl⟩

/-- Claim C3 fails on the code: a well-formed document that declares no
namespaces reaches the path lookup for the `cfdi` alias, which raises
(`SyntaxError` in the path evaluator) instead of returning the silent
rejection `(None, [])`; the exception escapes `parse_cfdi`. -/
theorem claim_C3_exception_escapes :
    parse_cfdi noNsDoc = .error "SyntaxError: unresolved path alias cfdi" :=
  rfl

/-- Claim C4: in every accepted parse, the record's transferred-VAT total is
the sum of the document-level VAT (`002`) transferred entries plus the sum of
every line item's own VAT transferred entries — the two sources add, never
overwrite. -/
theorem claim_C4_additive_vat (doc : XmlDoc) (r : CFDI) (cs : List Concepto)
    (h : parse_cfdi doc = .ok (some r, cs)) :
    r.iva_trasladado =
      taxSum "002" (docTrasladoEls ((cfdiUriOf doc).getD "") doc.root) +
      lineTrasladoTotal "002" ((cfdiUriOf doc).getD "") doc.root := by
  obtain ⟨uri, hu, heq⟩ := parse_ok_inv doc r cs h
  have hr : r = (buildRecord uri doc.root (tipoOf doc.root)
      (extractUuid uri (tfdUriOf doc) doc.root)).1 := congrArg Prod.fst heq
  rw [hu, Option.getD_some, hr]
  exact (buildRecord_taxes uri doc.root (tipoOf doc.root)
    (extractUuid uri (tfdUriOf doc) doc.root)).1

/-- Witness for C4 at the end-to-end document: the 16.0 document-level VAT
and the 16.0 line-level VAT add to 32.0. -/
theorem claim_C4_witness :
    parse_cfdi sampleCfdi40 =
      .ok (some ((recordOf (parse_cfdi sampleCfdi40)).getD (mkTestCFDI "" "" "")),
        conceptsOf (parse_cfdi sampleCfdi40)) ∧
    ((recordOf (parse_cfdi sampleCfdi40)).getD (mkTestCFDI "" "" "")).iva_trasladado =
      taxSum "002" (docTrasladoEls ((cfdiUriOf sampleCfdi40).getD "") sampleCfdi40.root) +
      lineTrasladoTotal "002" ((cfdiUriOf sampleCfdi40).getD "") sampleCfdi40.root ∧
    ((recordOf (parse_cfdi sampleCfdi40)).getD (mkTestCFDI "" "" "")).iva_trasladado = 32 :=
  ⟨by with_unfolding_all rfl,
   claim_C4_additive_vat sampleCfdi40 _ _ (by with_unfolding_all rfl),
   by with_unfolding_all rfl⟩

/-- Counterexample to C5: a document whose only tax content is one
document-level `Retencion` entry with code `001` and amount 10.0 parses to a
record whose withheld-ISR total is 10.0 — a document-level non-VAT entry does
contribute to a tax-total field. -/
theorem claim_C5_counterexample :
    (recordOf (parse_cfdi docRet001)).map CFDI.isr_retenido = some 10 ∧
    (recordOf (parse_cfdi docRet001)).map CFDI.isr_retenido ≠ some 0 := by
  constructor
  · with_unfolding_all rfl
  · intro h
    rw [show (recordOf (parse_cfdi docRet001)).map CFDI.isr_retenido = some 10 by
      with_unfolding_all rfl] at h
    simp only [Option.some.injEq] at h
    norm_num at h

/-- Claim C5 as amended: at the document level only VAT is read among the
transferred (`Traslado`) entries — codes `001`/`003` there contribute
nothing — but the document-level withheld (`Retencion`) entries are read for
all three codes: `001` into withheld ISR, `002` into withheld VAT and `003`
into excise, each added to the corresponding line-level sums. -/
theorem claim_C5_amended (doc : XmlDoc) (r : CFDI) (cs : List Concepto)
    (h : parse_cfdi doc = .ok (some r, cs)) :
    r.iva_trasladado =
      taxSum "002" (docTrasladoEls ((cfdiUriOf doc).getD "") doc.root) +
      lineTrasladoTotal "002" ((cfdiUriOf doc).getD "") doc.root ∧
    r.isr_retenido =
      taxSum "001" (docRetencionEls ((cfdiUriOf doc).getD "") doc.root) +
      lineRetencionTotal "001" ((cfdiUriOf doc).getD "") doc.root ∧
    r.iva_retenido =
      taxSum "002" (docRetencionEls ((cfdiUriOf doc).getD "") doc.root) +
      lineRetencionTotal "002" ((cfdiUriOf doc).getD "") doc.root ∧
    r.ieps =
      taxSum "003" (docRetencionEls ((cfdiUriOf doc).getD "") doc.root) +
      lineTrasladoTotal "003" ((cfdiUriOf doc).getD "") doc.root +
      lineRetencionTotal "003" ((cfdiUriOf doc).getD "") doc.root := by
  obtain ⟨uri, hu, heq⟩ := parse_ok_inv doc r cs h
  have hr : r = (buildRecord uri doc.root (tipoOf doc.root)
      (extractUuid uri (tfdUriOf doc) doc.root)).1 := congrArg Prod.fst heq
  rw [hu, Option.getD_some, hr]
  exact buildRecord_taxes uri doc.root (tipoOf doc.root)
    (extractUuid uri (tfdUriOf doc) doc.root)

/-- Witness for the amended C5 at `docRet001`: the document-level `001`
withheld entry lands in the withheld-ISR total, which evaluates to 10.0. -/
theorem claim_C5_witness :
    parse_cfdi docRet001 =
      .ok (some ((recordOf (parse_cfdi docRet001)).getD (mkTestCFDI "" "" "")),
        conceptsOf (parse_cfdi docRet001)) ∧
    ((recordOf (parse_cfdi docRet001)).getD (mkTestCFDI "" "" "")).isr_retenido =
      taxSum "001" (docRetencionEls ((cfdiUriOf docRet001).getD "") docRet001.root) +
      lineRetencionTotal "001" ((cfdiUriOf docRet001).getD "") docRet001.root ∧
    ((recordOf (parse_cfdi docRet001)).getD (mkTestCFDI "" "" "")).isr_retenido = 10 :=
  ⟨by with_unfolding_all rfl,
   (claim_C5_amended docRet001 _ _ (by with_unfolding_all rfl)).2.1,
   by with_unfolding_all rfl⟩

/-- Claim C9: in every accepted parse, the record's line-item count equals
the length of the returned line-item list, and every returned line item
carries the record's own document UUID. -/
theorem claim_C9_record_consistency (doc : XmlDoc) (r : CFDI) (cs : List Concepto)
    (h : parse_cfdi doc = .ok (some r, cs)) :
    r.num_conceptos = cs.length ∧ ∀ c ∈ cs, c.uuid = r.uuid := by
  obtain ⟨uri, hu, heq⟩ := parse_ok_inv doc r cs h
  have hr : r = (buildRecord uri doc.root (tipoOf doc.root)
      (extractUuid uri (tfdUriOf doc) doc.root)).1 := congrArg Prod.fst heq
  have hc : cs = (buildRecord uri doc.root (tipoOf doc.root)
      (extractUuid uri (tfdUriOf doc) doc.root)).2 := congrArg Prod.snd heq
  obtain ⟨hmap, hlen, huuid⟩ := buildRecord_concepts uri doc.root (tipoOf doc.root)
    (extractUuid uri (tfdUriOf doc) doc.root)
  constructor
  · rw [hr, hc]
    exact hlen
  · intro c hcm
    rw [hc, hmap] at hcm
    obtain ⟨el, _, rfl⟩ := List.mem_map.mp hcm
    rw [processConcepto_uuid, hr, huuid]

/-- Witness for C9 at the end-to-end document: one line item, stamped with
the record's UUID. -/
theorem claim_C9_witness :
    parse_cfdi sampleCfdi40 =
      .ok (some ((recordOf (parse_cfdi sampleCfdi40)).getD (mkTestCFDI "" "" "")),
        conceptsOf (parse_cfdi sampleCfdi40)) ∧
    ((recordOf (parse_cfdi sampleCfdi40)).getD (mkTestCFDI "" "" "")).num_conceptos =
      (conceptsOf (parse_cfdi sampleCfdi40)).length ∧
    (∀ c ∈ conceptsOf (parse_cfdi sampleCfdi40),
      c.uuid = ((recordOf (parse_cfdi sampleCfdi40)).getD (mkTestCFDI "" "" "")).uuid) ∧
    (conceptsOf (parse_cfdi sampleCfdi40)).length = 1 :=
  ⟨by with_unfolding_all rfl,
   (claim_C9_record_consistency sampleCfdi40 _ _ (by with_unfolding_all rfl)).1,
   (claim_C9_record_consistency sampleCfdi40 _ _ (by with_unfolding_all rfl)).2,
   rfl⟩

/-- Claim C10: the classifier's emptiness check precedes normalization — a
non-empty, whitespace-only taxpayer id passes the guard, normalizes to the
empty string, and on a type-`I` record with an empty issuer tax-id compares
equal to the normalized issuer, so the result is `Ingresos`, not
`No clasificado`. -/
theorem claim_C10_whitespace_rfc (c : CFDI) (rfc : String)
    (h0 : rfc ≠ "") (h1 : pyStrip rfc = "")
    (h2 : pyUpper c.tipo = "I") (h3 : c.emisor_rfc = "") :
    classify_cfdi (some c) rfc = "Ingresos" := by
  have e1 : pyUpper (pyStrip rfc) = pyUpper (pyStrip c.emisor_rfc) := by
    rw [h1, h3, show pyStrip "" = "" from rfl]
  simp [classify_cfdi, h0, h2, e1]

/-- Witness for C10: a space-only taxpayer id on a type-`I` record with an
empty issuer tax-id classifies as `Ingresos`. -/
theorem claim_C10_witness :
    classify_cfdi (some (mkTestCFDI "I" "" "BBB010101BBB")) "   " = "Ingresos" :=
  claim_C10_whitespace_rfc (mkTestCFDI "I" "" "BBB010101BBB") "   "
    (by simp) (by with_unfolding_all rfl) (by with_unfolding_all rfl) rfl

/-- `kpiStep` on a record classified `Ingresos`. -/
theorem kpiStep_ing (a : KpiAcc) (c : CFDI) (h : c.clasificacion = "Ingresos") :
    kpiStep a c =
      { a with
        total_ingresos := a.total_ingresos + c.total
        count_ingresos := a.count_ingresos + 1
        ingresos_por_mes := bumpMes a.ingresos_por_mes c
        clientes := bumpCliente a.clientes c
        iva_trasladado := a.iva_trasladado + c.iva_trasladado
        isr_retenido := a.isr_retenido + c.isr_retenido
        iva_retenido := a.iva_retenido + c.iva_retenido
        ieps := a.ieps + c.ieps } := by
  simp [kpiStep, h, bumpMes, bumpCliente]

/-- `kpiStep` on a record classified `Egresos`. -/
theorem kpiStep_eg (a : KpiAcc) (c : CFDI) (h : c.clasificacion = "Egresos") :
    kpiStep a c =
      { a with
        total_egresos := a.total_egresos + c.total
        count_egresos := a.count_egresos + 1
        egresos_por_mes := bumpMes a.egresos_por_mes c
        proveedores := bumpProveedor a.proveedores c
        iva_trasladado := a.iva_trasladado + c.iva_trasladado
        isr_retenido := a.isr_retenido + c.isr_retenido
        iva_retenido := a.iva_retenido + c.iva_retenido
        ieps := a.ieps + c.ieps } := by
  simp [kpiStep, h, bumpMes, bumpProveedor]

/-- `kpiStep` on an unclassified record: only the four tax totals move. -/
theorem kpiStep_other (a : KpiAcc) (c : CFDI)
    (h1 : c.clasificacion ≠ "Ingresos") (h2 : c.clasificacion ≠ "Egresos") :
    kpiStep a c =
      { a with
        iva_trasladado := a.iva_trasladado + c.iva_trasladado
        isr_retenido := a.isr_retenido + c.isr_retenido
        iva_retenido := a.iva_retenido + c.iva_retenido
        ieps := a.ieps + c.ieps } := by
  simp [kpiStep, h1, h2]

/-- Closed form of the whole aggregation loop: directional totals, counters,
month buckets and counterparty sums come from the records with the matching
label only, while the four tax totals sum over every record. -/
theorem kpiFold_eq (l : List CFDI) (a : KpiAcc) :
    l.foldl kpiStep a =
      { total_ingresos := a.total_ingresos + ((l.filter esIngreso).map CFDI.total).sum
        total_egresos := a.total_egresos + ((l.filter esEgreso).map CFDI.total).sum
        iva_trasladado := a.iva_trasladado + (l.map CFDI.iva_trasladado).sum
        isr_retenido := a.isr_retenido + (l.map CFDI.isr_retenido).sum
        iva_retenido := a.iva_retenido + (l.map CFDI.iva_retenido).sum
        ieps := a.ieps + (l.map CFDI.ieps).sum
        count_ingresos := a.count_ingresos + l.countP esIngreso
        count_egresos := a.count_egresos + l.countP esEgreso
        ingresos_por_mes := (l.filter esIngreso).foldl bumpMes a.ingresos_por_mes
        egresos_por_mes := (l.filter esEgreso).foldl bumpMes a.egresos_por_mes
        clientes := (l.filter esIngreso).foldl bumpCliente a.clientes
        proveedores := (l.filter esEgreso).foldl bumpProveedor a.proveedores } := by
  induction l generalizing a with
  | nil => simp
  | cons c l ih =>
    rw [List.foldl_cons]
    by_cases h1 : c.clasificacion = "Ingresos"
    · have hf : (c :: l).filter esIngreso = c :: l.filter esIngreso := by
        simp [esIngreso, h1]
      have hf2 : (c :: l).filter esEgreso = l.filter esEgreso := by
        simp [esEgreso, h1]
      have hc1 : (c :: l).countP esIngreso = l.countP esIngreso + 1 := by
        simp [esIngreso, List.countP_cons, h1]
      have hc2 : (c :: l).countP esEgreso = l.countP esEgreso := by
        simp [esEgreso, List.countP_cons, h1]
      rw [kpiStep_ing a c h1, ih, hf, hf2, hc1, hc2]
      simp [add_assoc]
      omega
    · by_cases h2 : c.clasificacion = "Egresos"
      · have hf : (c :: l).filter esIngreso = l.filter esIngreso := by
          simp [esIngreso, h2]
        have hf2 : (c :: l).filter esEgreso = c :: l.filter esEgreso := by
          simp [esEgreso, h2]
        have hc1 : (c :: l).countP esIngreso = l.countP esIngreso := by
          simp [esIngreso, List.countP_cons, h2]
        have hc2 : (c :: l).countP esEgreso = l.countP esEgreso + 1 := by
          simp [esEgreso, List.countP_cons, h2]
        rw [kpiStep_eg a c h2, ih, hf, hf2, hc1, hc2]
        simp [add_assoc]
        omega
      · have hf : (c :: l).filter esIngreso = l.filter esIngreso := by
          simp [esIngreso, h1]
        have hf2 : (c :: l).filter esEgreso = l.filter esEgreso := by
          simp [esEgreso, h2]
        have hc1 : (c :: l).countP esIngreso = l.countP esIngreso := by
          simp [esIngreso, List.countP_cons, h1]
        have hc2 : (c :: l).countP esEgreso = l.countP esEgreso := by
          simp [esEgreso, List.countP_cons, h2]
        rw [kpiStep_other a c h1 h2, ih, hf, hf2, hc1, hc2]
        simp [add_assoc]

/-- Claim C6: for every record list and quality counters, the snapshot's
`neto` is exactly `total_ingresos - total_egresos`, and `conteo_cfdi` counts
exactly the records labelled `Ingresos` plus those labelled `Egresos`. -/
theorem claim_C6_kpi_invariant (cfdis : List CFDI) (inv dup c33 : Nat) :
    (compute_kpis cfdis inv dup c33).neto =
      (compute_kpis cfdis inv dup c33).total_ingresos -
      (compute_kpis cfdis inv dup c33).total_egresos ∧
    (compute_kpis cfdis inv dup c33).conteo_cfdi =
      cfdis.countP esIngreso + cfdis.countP esEgreso := by
  constructor
  · simp [compute_kpis]
  · simp [compute_kpis, kpiFold_eq, kpiInit]

/-- Claim C7: every record contributes its four document-level tax totals to
the snapshot's grand tax totals regardless of its label, while the
directional totals, month buckets and counterparty rankings are computed from
the records labelled `Ingresos` (receiver-keyed customers) or `Egresos`
(issuer-keyed suppliers) only — an unclassified record contributes zero to
all of those. -/
theorem claim_C7_taxes_vs_directional (cfdis : List CFDI) (inv dup c33 : Nat) :
    (compute_kpis cfdis inv dup c33).iva_trasladado =
      (cfdis.map CFDI.iva_trasladado).sum ∧
    (compute_kpis cfdis inv dup c33).isr_retenido =
      (cfdis.map CFDI.isr_retenido).sum ∧
    (compute_kpis cfdis inv dup c33).iva_retenido =
      (cfdis.map CFDI.iva_retenido).sum ∧
    (compute_kpis cfdis inv dup c33).ieps = (cfdis.map CFDI.ieps).sum ∧
    (compute_kpis cfdis inv dup c33).total_ingresos =
      ((cfdis.filter esIngreso).map CFDI.total).sum ∧
    (compute_kpis cfdis inv dup c33).total_egresos =
      ((cfdis.filter esEgreso).map CFDI.total).sum ∧
    (compute_kpis cfdis inv dup c33).ingresos_por_mes =
      (cfdis.filter esIngreso).foldl bumpMes [] ∧
    (compute_kpis cfdis inv dup c33).egresos_por_mes =
      (cfdis.filter esEgreso).foldl bumpMes [] ∧
    (compute_kpis cfdis inv dup c33).top_clientes =
      top5 ((cfdis.filter esIngreso).foldl bumpCliente []) ∧
    (compute_kpis cfdis inv dup c33).top_proveedores =
      top5 ((cfdis.filter esEgreso).foldl bumpProveedor []) := by
  simp [compute_kpis, kpiFold_eq, kpiInit]

/-- One successfully parsed file bumps `processed` by exactly one. -/
theorem scanFileOk_processed (rfc : String) (st : ScanState)
    (pr : Option CFDI × List Concepto) :
    (scanFileOk rfc st pr).processed = st.processed + 1 :=
  rfl

/-- One successfully parsed file never decreases the data-quality counters. -/
theorem scanFileOk_mono (rfc : String) (st : ScanState)
    (pr : Option CFDI × List Concepto) :
    st.invalid ≤ (scanFileOk rfc st pr).invalid ∧
    st.duplicates ≤ (scanFileOk rfc st pr).duplicates ∧
    st.cfdi33 ≤ (scanFileOk rfc st pr).cfdi33 := by
  simp only [scanFileOk]
  cases hp : pr.1 with
  | none => simp
  | some cfdi =>
    by_cases hd : cfdi.uuid ∈ st.uuids_seen
    · simp [hd]
    · by_cases hv : pyStartsWith cfdi.version "3.3" <;> simp [hd, hv]

/-- A state dominated by a later state keeps dominating its events. -/
theorem stateLE_weaken (total : Nat) (st st' : ScanState) (e : ScanEvent)
    (h1 : st.processed ≤ st'.processed) (h2 : st.invalid ≤ st'.invalid)
    (h3 : st.duplicates ≤ st'.duplicates) (h4 : st.cfdi33 ≤ st'.cfdi33)
    (h : stateLE total st' e) : stateLE total st e := by
  cases e with
  | progress p i d c t =>
    obtain ⟨k1, k2, k3, k4, k5⟩ := h
    exact ⟨le_trans h1 k1, le_trans h2 k2, le_trans h3 k3, le_trans h4 k4, k5⟩
  | finished cs ks => exact h

/-- A dominated event is above the progress event taken at the state itself. -/
theorem progLE_of_stateLE (total : Nat) (st : ScanState) (e : ScanEvent)
    (h : stateLE total st e) :
    progLE (.progress st.processed st.invalid st.duplicates st.cfdi33 total) e := by
  cases e with
  | progress p i d c t =>
    obtain ⟨k1, k2, k3, k4, k5⟩ := h
    exact ⟨k1, k2, k3, k4, k5.symm⟩
  | finished cs ks => exact h

/-- When no parse call raises, the loop runs to completion. -/
theorem scanLoop_ok {α : Type} (parseFn : α → Except String (Option CFDI × List Concepto))
    (rfc : String) (total : Nat) (fs : List α) (st : ScanState)
    (hok : ∀ f ∈ fs, ∃ p, parseFn f = .ok p) :
    ∃ stF, (scanLoop parseFn rfc total st fs).2 = .ok stF := by
  induction fs generalizing st with
  | nil => exact ⟨st, rfl⟩
  | cons f fs ih =>
    obtain ⟨p, hp⟩ := hok f (List.mem_cons_self f fs)
    have hstep : scanFileStep parseFn rfc st f = .ok (scanFileOk rfc st p) := by
      simp [scanFileStep, hp]
    obtain ⟨stF, hF⟩ := ih (scanFileOk rfc st p)
      (fun g hg => hok g (List.mem_cons_of_mem f hg))
    exact ⟨stF, by simp [scanLoop, hstep, hF]⟩

/-- When no parse call raises, the loop emits one event per file. -/
theorem scanLoop_length {α : Type} (parseFn : α → Except String (Option CFDI × List Concepto))
    (rfc : String) (total : Nat) (fs : List α) (st : ScanState)
    (hok : ∀ f ∈ fs, ∃ p, parseFn f = .ok p) :
    (scanLoop parseFn rfc total st fs).1.length = fs.length := by
  induction fs generalizing st with
  | nil => simp [scanLoop]
  | cons f fs ih =>
    obtain ⟨p, hp⟩ := hok f (List.mem_cons_self f fs)
    have hstep : scanFileStep parseFn rfc st f = .ok (scanFileOk rfc st p) := by
      simp [scanFileStep, hp]
    simp [scanLoop, hstep,
      ih (scanFileOk rfc st p) (fun g hg => hok g (List.mem_cons_of_mem f hg))]

/-- Every event the loop emits is a progress event. -/
theorem scanLoop_all_prog {α : Type} (parseFn : α → Except String (Option CFDI × List Concepto))
    (rfc : String) (total : Nat) (fs : List α) (st : ScanState) :
    ∀ e ∈ (scanLoop parseFn rfc total st fs).1, e.isProg = true := by
  induction fs generalizing st with
  | nil => simp [scanLoop]
  | cons f fs ih =>
    intro e he
    simp only [scanLoop] at he
    cases hstep : scanFileStep parseFn rfc st f with
    | error msg => rw [hstep] at he; simp at he
    | ok st1 =>
      rw [hstep] at he
      simp only [List.mem_cons] at he
      rcases he with rfl | he
      · rfl
      · exact ih st1 e he

/-- Every event the loop emits dominates the state the loop started from. -/
theorem scanLoop_ge {α : Type} (parseFn : α → Except String (Option CFDI × List Concepto))
    (rfc : String) (total : Nat) (fs : List α) (st : ScanState) :
    ∀ e ∈ (scanLoop parseFn rfc total st fs).1, stateLE total st e := by
  induction fs generalizing st with
  | nil => simp [scanLoop]
  | cons f fs ih =>
    intro e he
    simp only [scanLoop] at he
    cases hstep : scanFileStep parseFn rfc st f with
    | error msg => rw [hstep] at he; simp at he
    | ok st1 =>
      rw [hstep] at he
      simp only [List.mem_cons] at he
      obtain ⟨p, hp, hs1⟩ : ∃ p, parseFn f = .ok p ∧ st1 = scanFileOk rfc st p := by
        cases hpf : parseFn f with
        | error msg =>
          rw [scanFileStep, hpf] at hstep
          simp at hstep
        | ok p =>
          rw [scanFileStep, hpf] at hstep
          simp only [Except.ok.injEq] at hstep
          exact ⟨p, rfl, hstep.symm⟩
      obtain ⟨m1, m2, m3⟩ := scanFileOk_mono rfc st p
      have hpr := scanFileOk_processed rfc st p
      rcases he with rfl | he
      · rw [hs1]
        exact ⟨by omega, m1, m2, m3, rfl⟩
      · refine stateLE_weaken total st st1 e ?_ ?_ ?_ ?_ (ih st1 e he)
        · rw [hs1]; omega
        · rw [hs1]; exact m1
        · rw [hs1]; exact m2
        · rw [hs1]; exact m3

/-- The loop's events are pairwise monotone. -/
theorem scanLoop_pairwise {α : Type} (parseFn : α → Except String (Option CFDI × List Concepto))
    (rfc : String) (total : Nat) (fs : List α) (st : ScanState) :
    List.Pairwise progLE (scanLoop parseFn rfc total st fs).1 := by
  induction fs generalizing st with
  | nil => simp [scanLoop]
  | cons f fs ih =>
    simp only [scanLoop]
    cases hstep : scanFileStep parseFn rfc st f with
    | error msg => simp
    | ok st1 =>
      refine List.pairwise_cons.mpr ⟨?_, ih st1⟩
      intro e he
      exact progLE_of_stateLE total st1 e (scanLoop_ge parseFn rfc total fs st1 e he)

/-- When no parse call raises, the i-th event of the loop is a progress
event whose processed count is the starting count plus `i + 1`, with the
fixed total. -/
theorem scanLoop_getD {α : Type} (parseFn : α → Except String (Option CFDI × List Concepto))
    (rfc : String) (total : Nat) (fs : List α) (st : ScanState) (i : Nat)
    (hi : i < fs.length)
    (hok : ∀ f ∈ fs, ∃ p, parseFn f = .ok p) :
    ∃ inv dup c33,
      (scanLoop parseFn rfc total st fs).1.getD i (.finished [] []) =
        .progress (st.processed + i + 1) inv dup c33 total := by
  induction fs generalizing st i with
  | nil => simp at hi
  | cons f fs ih =>
    obtain ⟨p, hp⟩ := hok f (List.mem_cons_self f fs)
    have hstep : scanFileStep parseFn rfc st f = .ok (scanFileOk rfc st p) := by
      simp [scanFileStep, hp]
    cases i with
    | zero =>
      refine ⟨(scanFileOk rfc st p).invalid, (scanFileOk rfc st p).duplicates,
        (scanFileOk rfc st p).cfdi33, ?_⟩
      simp [scanLoop, hstep, List.getD_cons_zero, scanFileOk_processed]
    | succ i =>
      have hi2 : i < fs.length := by simpa using hi
      obtain ⟨inv, dup, c33, hE⟩ := ih (scanFileOk rfc st p) i hi2
        (fun g hg => hok g (List.mem_cons_of_mem f hg))
      refine ⟨inv, dup, c33, ?_⟩
      simp only [scanLoop, hstep, List.getD_cons_succ]
      rw [hE, scanFileOk_processed]
      congr 1
      omega

/-- A progress event is not the finished event. -/
theorem isFin_of_isProg (e : ScanEvent) (h : e.isProg = true) : e.isFin = false := by
  cases e with
  | progress p i d c t => rfl
  | finished cs ks => simp [ScanEvent.isProg] at h

/-- On a batch none of whose files makes the parser raise, the trace keeps
every guarantee the spec states: `n` ordered, monotone progress events (the
i-th with processed count `i + 1` and the constant total `n`) followed by
the single completion event, last and exactly once. -/
theorem scanner_trace_of_no_exception {α : Type}
    (parseFn : α → Except String (Option CFDI × List Concepto))
    (rfc : String) (files : List α)
    (hok : ∀ f ∈ files, ∃ p, parseFn f = .ok p) :
    (scanner_run parseFn rfc files).length = files.length + 1 ∧
    (∀ e ∈ (scanner_run parseFn rfc files).dropLast, e.isProg = true) ∧
    (∃ cs ks, (scanner_run parseFn rfc files).getLast? = some (.finished cs ks)) ∧
    (scanner_run parseFn rfc files).countP ScanEvent.isFin = 1 ∧
    (∀ i : Fin files.length, ∃ inv dup c33,
      (scanner_run parseFn rfc files).dropLast.getD i.val (.finished [] []) =
        .progress (i.val + 1) inv dup c33 files.length) ∧
    List.Pairwise progLE (scanner_run parseFn rfc files).dropLast := by
  obtain ⟨stF, hF⟩ := scanLoop_ok parseFn rfc files.length files scanInit hok
  have hrun : scanner_run parseFn rfc files =
      (scanLoop parseFn rfc files.length scanInit files).1 ++
        [ScanEvent.finished stF.cfdis stF.concepts_all] := by
    unfold scanner_run
    split
    · rename_i evs st hpair
      have h2 : st = stF := by
        have h3 := hF
        rw [hpair] at h3
        simpa using h3
      subst h2
      simp [hpair]
    · rename_i evs msg hpair
      rw [hpair] at hF
      simp at hF
  have hdrop : (scanner_run parseFn rfc files).dropLast =
      (scanLoop parseFn rfc files.length scanInit files).1 := by
    rw [hrun, List.dropLast_concat]
  refine ⟨?_, ?_, ?_, ?_, ?_, ?_⟩
  · rw [hrun, List.length_append, scanLoop_length parseFn rfc files.length files scanInit hok]
    rfl
  · rw [hdrop]
    exact scanLoop_all_prog parseFn rfc files.length files scanInit
  · rw [hrun, List.getLast?_concat]
    exact ⟨_, _, rfl⟩
  · rw [hrun, List.countP_append]
    have h0 : (scanLoop parseFn rfc files.length scanInit files).1.countP ScanEvent.isFin = 0 :=
      List.countP_eq_zero.mpr (fun e he => by
        rw [isFin_of_isProg e (scanLoop_all_prog parseFn rfc files.length files scanInit e he)]
        simp)
    rw [h0]
    rfl
  · intro i
    obtain ⟨inv, dup, c33, hE⟩ :=
      scanLoop_getD parseFn rfc files.length files scanInit i.val i.isLt hok
    refine ⟨inv, dup, c33, ?_⟩
    rw [hdrop, hE]
    congr 1
    simp [scanInit]
  · rw [hdrop]
    exact scanLoop_pairwise parseFn rfc files.length files scanInit

/-- Claim C8 fails on the code through the parser's uncaught exception: on a
two-file batch whose first file is well-formed XML with no namespace
declarations, the unguarded `parse_cfdi` call raises inside the loop and the
run aborts at once — the emitted trace is empty, with neither the two
per-file progress signals nor the completion signal the claim requires. -/
theorem claim_C8_abort_on_unparseable :
    scanner_run parse_cfdi "AAA010101AAA" [noNsDoc, sampleCfdi40] = [] ∧
    [noNsDoc, sampleCfdi40].length = 2 :=
  ⟨rfl, rfl⟩
